import Mathlib

/-!
Verification of the SageMaker CI/CD lifecycle scripts.

This file embeds, from the Python sources, the parts of the repository the
claims are about:

* the retention cleanup engine of src/scripts/cleanup_resources.py
  (cleanup_old_training_jobs, cleanup_old_endpoints, cleanup_old_models,
  cleanup_old_model_packages);
* the endpoint polling loop wait_for_endpoint of src/scripts/deploy_endpoint.py;
* the final-status handling of wait_for_training_job of
  src/scripts/train_sagemaker.py;
* save_release_metadata of src/scripts/create_release.py;
* create_zip_package of src/scripts/create_zip_package.py.

Timestamps are modelled as integer seconds; timedelta(days=d) is d * 86400
seconds. Queries are modelled as instantaneous and time.sleep(30) as exactly
30 seconds of elapsed time, so the k-th status query of a polling loop is
issued at elapsed time 30 * k.
-/

namespace SageMakerCICD

/-- Seconds in one day: timedelta(days=d) contributes d * 86400 seconds. -/
def secondsPerDay : Int := 86400

/-- cutoff_date = datetime.now() - timedelta(days=retention_days)
(cleanup_resources.py line 42 and its copies in the other cleanup functions). -/
def cutoffDate (now : Int) (retentionDays : Nat) : Int :=
  now - retentionDays * secondsPerDay

/-- One entry of the TrainingJobSummaries field of the list response: the fields
cleanup_old_training_jobs reads (TrainingJobName, CreationTime,
TrainingJobStatus). -/
structure TrainingJobSummary where
  name : String
  creationTime : Int
  status : String
deriving DecidableEq

/-- One entry of the Endpoints field of the list response: the fields cleanup_old_endpoints
reads (EndpointName, CreationTime, EndpointStatus). -/
structure EndpointSummary where
  name : String
  creationTime : Int
  status : String
deriving DecidableEq

/-- One entry of the Models field of the list response: the fields cleanup_old_models reads.
A SageMaker model summary carries no status field, and the source reads none
(cleanup_resources.py lines 177-183): only ModelName and CreationTime. -/
structure ModelSummary where
  name : String
  creationTime : Int
deriving DecidableEq

/-- One entry of the ModelPackageSummaryList field of the list response: the fields
cleanup_old_model_packages reads (ModelPackageArn, CreationTime,
ModelApprovalStatus). -/
structure ModelPackageSummary where
  arn : String
  creationTime : Int
  approvalStatus : String
deriving DecidableEq

/-- cleanup_resources.py line 60: the statuses a training job may have to be
deleted. -/
def trainingJobEligibleStatuses : List String := ["Completed", "Failed", "Stopped"]

/-- cleanup_resources.py line 122: the statuses an endpoint may have to be
deleted. -/
def endpointEligibleStatuses : List String := ["Failed", "OutOfService"]

/-- cleanup_resources.py line 244: the approval statuses a model package may
have to be deleted. -/
def modelPackageEligibleStatuses : List String := ["Rejected", "PendingManualApproval"]

/-- The jobs_to_delete accumulation loop of cleanup_old_training_jobs
(cleanup_resources.py lines 53-61): append the name when creation_time <
cutoff_date and the status is in the allow-list. -/
def selectTrainingJobs : List TrainingJobSummary → Int → Nat → List String
  | [], _, _ => []
  | j :: rest, now, d =>
    if j.creationTime < cutoffDate now d then
      if trainingJobEligibleStatuses.contains j.status then
        j.name :: selectTrainingJobs rest now d
      else
        selectTrainingJobs rest now d
    else
      selectTrainingJobs rest now d

/-- The endpoints_to_delete accumulation loop of cleanup_old_endpoints
(cleanup_resources.py lines 115-123). -/
def selectEndpoints : List EndpointSummary → Int → Nat → List String
  | [], _, _ => []
  | e :: rest, now, d =>
    if e.creationTime < cutoffDate now d then
      if endpointEligibleStatuses.contains e.status then
        e.name :: selectEndpoints rest now d
      else
        selectEndpoints rest now d
    else
      selectEndpoints rest now d

/-- The models_to_delete accumulation loop of cleanup_old_models
(cleanup_resources.py lines 177-183): age is the only condition, there is no
status check. -/
def selectModels : List ModelSummary → Int → Nat → List String
  | [], _, _ => []
  | m :: rest, now, d =>
    if m.creationTime < cutoffDate now d then
      m.name :: selectModels rest now d
    else
      selectModels rest now d

/-- The packages_to_delete accumulation loop of cleanup_old_model_packages
(cleanup_resources.py lines 237-245). -/
def selectModelPackages : List ModelPackageSummary → Int → Nat → List String
  | [], _, _ => []
  | p :: rest, now, d =>
    if p.creationTime < cutoffDate now d then
      if modelPackageEligibleStatuses.contains p.approvalStatus then
        p.arn :: selectModelPackages rest now d
      else
        selectModelPackages rest now d
    else
      selectModelPackages rest now d

/-- The live deletion loop shared by every cleanup function
(cleanup_resources.py lines 70-79 and its copies): each name is attempted; a
deleter returning false stands for delete raising, which the per-item except
block logs and swallows, so the loop continues. Returns (the deleted list the
function returns, the list of names the deleter was invoked on, in order). -/
def deleteLoop (deleter : String → Bool) : List String → List String × List String
  | [] => ([], [])
  | n :: rest =>
    let r := deleteLoop deleter rest
    if deleter n then (n :: r.1, n :: r.2) else (r.1, n :: r.2)

/-- Result of one cleanup call: the list the function returns to its caller
and the identifiers passed to the delete call, in order. -/
structure CleanupRun where
  returned : List String
  deleterCalls : List String
deriving DecidableEq

/-- cleanup_old_training_jobs (cleanup_resources.py lines 25-81) given the
lister result: build jobs_to_delete, then either return the empty list with
no delete calls (dry run, lines 63-67) or run the deletion loop. -/
def cleanupOldTrainingJobs (jobs : List TrainingJobSummary) (now : Int)
    (retentionDays : Nat) (dryRun : Bool) (deleter : String → Bool) : CleanupRun :=
  let toDelete := selectTrainingJobs jobs now retentionDays
  if dryRun then
    { returned := [], deleterCalls := [] }
  else
    let r := deleteLoop deleter toDelete
    { returned := r.1, deleterCalls := r.2 }

/-- cleanup_old_endpoints (cleanup_resources.py lines 87-143) given the lister
result. -/
def cleanupOldEndpoints (endpoints : List EndpointSummary) (now : Int)
    (retentionDays : Nat) (dryRun : Bool) (deleter : String → Bool) : CleanupRun :=
  let toDelete := selectEndpoints endpoints now retentionDays
  if dryRun then
    { returned := [], deleterCalls := [] }
  else
    let r := deleteLoop deleter toDelete
    { returned := r.1, deleterCalls := r.2 }

/-- cleanup_old_models (cleanup_resources.py lines 149-203) given the lister
result. -/
def cleanupOldModels (models : List ModelSummary) (now : Int)
    (retentionDays : Nat) (dryRun : Bool) (deleter : String → Bool) : CleanupRun :=
  let toDelete := selectModels models now retentionDays
  if dryRun then
    { returned := [], deleterCalls := [] }
  else
    let r := deleteLoop deleter toDelete
    { returned := r.1, deleterCalls := r.2 }

/-- cleanup_old_model_packages (cleanup_resources.py lines 209-265) given the
lister result. -/
def cleanupOldModelPackages (packages : List ModelPackageSummary) (now : Int)
    (retentionDays : Nat) (dryRun : Bool) (deleter : String → Bool) : CleanupRun :=
  let toDelete := selectModelPackages packages now retentionDays
  if dryRun then
    { returned := [], deleterCalls := [] }
  else
    let r := deleteLoop deleter toDelete
    { returned := r.1, deleterCalls := r.2 }

/-- deploy_endpoint.py line 284: time.sleep(30) between polls. -/
def pollIntervalSeconds : Nat := 30

/-- deploy_endpoint.py line 270: the statuses at which wait_for_endpoint
returns. -/
def endpointTerminalStatuses : List String := ["InService", "Failed", "OutOfService"]

/-- What wait_for_endpoint returns: the terminal status string (line 277) or
the sentinel Timeout string (line 282). -/
inductive PollResult where
  | terminal (status : String)
  | timedOut
deriving DecidableEq

/-- A run of the wait_for_endpoint loop: the returned value, the elapsed times
(in seconds since start_time) at which describe_endpoint was called, in order,
and how many times time.sleep(30) ran. -/
structure PollRun where
  result : PollResult
  queryTimes : List Nat
  sleeps : Nat
deriving DecidableEq

/-- The while-True body of wait_for_endpoint (deploy_endpoint.py lines
261-284), with query n the EndpointStatus the n-th describe_endpoint call
reports. Each iteration queries, returns the status if it is terminal,
otherwise returns Timeout if the elapsed time strictly exceeds timeout, and
otherwise sleeps 30 seconds and repeats. The n-th query happens at elapsed
time 30 * n. The fuel argument only bounds recursion; waitLoopFuel below never
runs out before the loop returns, so the bound is inert. -/
def waitLoop (query : Nat → String) (timeout : Nat) : Nat → Nat → Option PollRun
  | 0, _ => none
  | fuel + 1, n =>
    let s := query n
    let t := pollIntervalSeconds * n
    if endpointTerminalStatuses.contains s then
      some { result := PollResult.terminal s, queryTimes := [t], sleeps := 0 }
    else if timeout < t then
      some { result := PollResult.timedOut, queryTimes := [t], sleeps := 0 }
    else
      match waitLoop query timeout fuel (n + 1) with
      | none => none
      | some r => some { result := r.result, queryTimes := t :: r.queryTimes,
                         sleeps := r.sleeps + 1 }

/-- An upper bound on how many queries the source loop can make: once the
elapsed time 30 * n strictly exceeds timeout the loop returns at that
iteration, so at most timeout / 30 + 2 queries happen. -/
def waitLoopFuel (timeout : Nat) : Nat := timeout / pollIntervalSeconds + 2

/-- wait_for_endpoint (deploy_endpoint.py lines 246-288) as a function of the
status sequence the provider reports. -/
def waitForEndpoint (query : Nat → String) (timeout : Nat) : Option PollRun :=
  waitLoop query timeout (waitLoopFuel timeout) 0

/-- The final-status handling of wait_for_training_job (train_sagemaker.py
lines 161-171), given the TrainingJobStatus that describe_training_job reports
once the waiter finishes: Completed is returned; any other status makes the
function raise Exception, modelled as Except.error carrying the message. -/
def trainingWaitOutcome (finalStatus : String) : Except String String :=
  if finalStatus == "Completed" then
    Except.ok finalStatus
  else
    Except.error ("Training job failed: " ++ finalStatus)

/-- The fields of the release metadata record that identify and fill it
(create_release.py lines 66-84); the descriptive fields beyond the identifier
are collapsed into endpointName, modelName and creationTime, enough to tell
two records apart. -/
structure ReleaseMetadata where
  releaseType : String
  version : String
  endpointName : String
  modelName : String
  creationTime : String
deriving DecidableEq

/-- create_release.py line 102: the metadata filename built from the release
type and version. -/
def releaseFilename (m : ReleaseMetadata) : String :=
  "release_" ++ m.releaseType ++ "_" ++ m.version ++ ".json"

/-- save_release_metadata (create_release.py lines 88-124) acting on the local
store, modelled as a write log read through List.lookup (the newest write to a
filename is the file content). The source opens the file with mode w and
writes unconditionally: no existence check, no error path; it returns the
filename. -/
def saveReleaseMetadata (store : List (String × ReleaseMetadata))
    (m : ReleaseMetadata) : String × List (String × ReleaseMetadata) :=
  let filename := releaseFilename m
  (filename, (filename, m) :: store)

/-- A Python runtime error; create_zip_package can only hit the arity
mismatch. -/
inductive PyError where
  | typeError (msg : String)
deriving DecidableEq

/-- create_zip_package.py line 122: def add_documentation takes exactly four
parameters (zipf, release_type, pr_id, commit_id), none optional. -/
def addDocumentationParamCount : Nat := 4

/-- create_zip_package.py line 53: the call site passes five positional
arguments (zipf, release_type, pr_id, commit_id, project_type). -/
def addDocumentationCallArgCount : Nat := 5

/-- create_zip_package (create_zip_package.py lines 17-59) given the archive
entries the filesystem-dependent helpers would add: sourceEntries from
add_source_code, trainingFileEntries from add_training_files,
modelArtifactEntries from add_model_artifacts, inferenceFileEntries from
add_inference_files. add_endpoint_configs, add_deployment_configs,
add_documentation and add_metadata write fixed entry names. Python checks the
argument count of a call against the function signature before running the
body, so the add_documentation call raises TypeError when the counts differ;
the error carries the entries written up to that point. On success the zip
name and the full entry list are returned. -/
def createZipPackage (zipName : String) (projectType : String)
    (sourceEntries trainingFileEntries modelArtifactEntries inferenceFileEntries : List String)
    (trainingOutputDirExists : Bool) (endpointNameProvided : Bool) :
    Except (PyError × List String) (String × List String) :=
  let afterSource := sourceEntries
  let afterProject :=
    if projectType == "training" then
      afterSource ++ trainingFileEntries ++
        (if trainingOutputDirExists then modelArtifactEntries else [])
    else if projectType == "inference" then
      afterSource ++ inferenceFileEntries ++
        (if endpointNameProvided then ["endpoint_config.json"] else [])
    else
      afterSource ++ trainingFileEntries ++
        (if trainingOutputDirExists then modelArtifactEntries else [])
  let afterDeployment := afterProject ++ ["deployment_config.json"]
  if addDocumentationCallArgCount = addDocumentationParamCount then
    Except.ok (zipName, afterDeployment ++ ["RELEASE_NOTES.md", "metadata.json"])
  else
    Except.error
      (PyError.typeError
        ("add_documentation takes 4 positional arguments but 5 were given"),
       afterDeployment)

/-- Membership in the jobs_to_delete list: exactly the names of listed jobs
created strictly before the cutoff whose status is in the allow-list. -/
theorem mem_selectTrainingJobs (jobs : List TrainingJobSummary) (now : Int)
    (d : Nat) (s : String) :
    s ∈ selectTrainingJobs jobs now d ↔
      ∃ j, j ∈ jobs ∧ j.name = s ∧ j.creationTime < cutoffDate now d ∧
        trainingJobEligibleStatuses.contains j.status = true := by
  induction jobs with
  | nil => simp [selectTrainingJobs]
  | cons j rest ih =>
    by_cases h1 : j.creationTime < cutoffDate now d
    · by_cases h2 : trainingJobEligibleStatuses.contains j.status = true
      · simp only [selectTrainingJobs, if_pos h1, if_pos h2, List.mem_cons, ih]
        constructor
        · rintro (rfl | ⟨j2, hj2, hs, hc, ht⟩)
          · exact ⟨j, Or.inl rfl, rfl, h1, h2⟩
          · exact ⟨j2, Or.inr hj2, hs, hc, ht⟩
        · rintro ⟨j2, hj2 | hj2, hs, hc, ht⟩
          · exact Or.inl (hj2 ▸ hs.symm)
          · exact Or.inr ⟨j2, hj2, hs, hc, ht⟩
      · simp only [selectTrainingJobs, if_pos h1, if_neg h2, List.mem_cons, ih]
        constructor
        · rintro ⟨j2, hj2, hs, hc, ht⟩
          exact ⟨j2, Or.inr hj2, hs, hc, ht⟩
        · rintro ⟨j2, hj2 | hj2, hs, hc, ht⟩
          · exact absurd (hj2 ▸ ht) h2
          · exact ⟨j2, hj2, hs, hc, ht⟩
    · simp only [selectTrainingJobs, if_neg h1, List.mem_cons, ih]
      constructor
      · rintro ⟨j2, hj2, hs, hc, ht⟩
        exact ⟨j2, Or.inr hj2, hs, hc, ht⟩
      · rintro ⟨j2, hj2 | hj2, hs, hc, ht⟩
        · exact absurd (hj2 ▸ hc) h1
        · exact ⟨j2, hj2, hs, hc, ht⟩

/-- Membership in the endpoints_to_delete list. -/
theorem mem_selectEndpoints (endpoints : List EndpointSummary) (now : Int)
    (d : Nat) (s : String) :
    s ∈ selectEndpoints endpoints now d ↔
      ∃ e, e ∈ endpoints ∧ e.name = s ∧ e.creationTime < cutoffDate now d ∧
        endpointEligibleStatuses.contains e.status = true := by
  induction endpoints with
  | nil => simp [selectEndpoints]
  | cons e rest ih =>
    by_cases h1 : e.creationTime < cutoffDate now d
    · by_cases h2 : endpointEligibleStatuses.contains e.status = true
      · simp only [selectEndpoints, if_pos h1, if_pos h2, List.mem_cons, ih]
        constructor
        · rintro (rfl | ⟨e2, he2, hs, hc, ht⟩)
          · exact ⟨e, Or.inl rfl, rfl, h1, h2⟩
          · exact ⟨e2, Or.inr he2, hs, hc, ht⟩
        · rintro ⟨e2, he2 | he2, hs, hc, ht⟩
          · exact Or.inl (he2 ▸ hs.symm)
          · exact Or.inr ⟨e2, he2, hs, hc, ht⟩
      · simp only [selectEndpoints, if_pos h1, if_neg h2, List.mem_cons, ih]
        constructor
        · rintro ⟨e2, he2, hs, hc, ht⟩
          exact ⟨e2, Or.inr he2, hs, hc, ht⟩
        · rintro ⟨e2, he2 | he2, hs, hc, ht⟩
          · exact absurd (he2 ▸ ht) h2
          · exact ⟨e2, he2, hs, hc, ht⟩
    · simp only [selectEndpoints, if_neg h1, List.mem_cons, ih]
      constructor
      · rintro ⟨e2, he2, hs, hc, ht⟩
        exact ⟨e2, Or.inr he2, hs, hc, ht⟩
      · rintro ⟨e2, he2 | he2, hs, hc, ht⟩
        · exact absurd (he2 ▸ hc) h1
        · exact ⟨e2, he2, hs, hc, ht⟩

/-- Membership in the models_to_delete list: age is the only condition. -/
theorem mem_selectModels (models : List ModelSummary) (now : Int)
    (d : Nat) (s : String) :
    s ∈ selectModels models now d ↔
      ∃ m, m ∈ models ∧ m.name = s ∧ m.creationTime < cutoffDate now d := by
  induction models with
  | nil => simp [selectModels]
  | cons m rest ih =>
    by_cases h1 : m.creationTime < cutoffDate now d
    · simp only [selectModels, if_pos h1, List.mem_cons, ih]
      constructor
      · rintro (rfl | ⟨m2, hm2, hs, hc⟩)
        · exact ⟨m, Or.inl rfl, rfl, h1⟩
        · exact ⟨m2, Or.inr hm2, hs, hc⟩
      · rintro ⟨m2, hm2 | hm2, hs, hc⟩
        · exact Or.inl (hm2 ▸ hs.symm)
        · exact Or.inr ⟨m2, hm2, hs, hc⟩
    · simp only [selectModels, if_neg h1, List.mem_cons, ih]
      constructor
      · rintro ⟨m2, hm2, hs, hc⟩
        exact ⟨m2, Or.inr hm2, hs, hc⟩
      · rintro ⟨m2, hm2 | hm2, hs, hc⟩
        · exact absurd (hm2 ▸ hc) h1
        · exact ⟨m2, hm2, hs, hc⟩

/-- Membership in the packages_to_delete list. -/
theorem mem_selectModelPackages (packages : List ModelPackageSummary) (now : Int)
    (d : Nat) (s : String) :
    s ∈ selectModelPackages packages now d ↔
      ∃ p, p ∈ packages ∧ p.arn = s ∧ p.creationTime < cutoffDate now d ∧
        modelPackageEligibleStatuses.contains p.approvalStatus = true := by
  induction packages with
  | nil => simp [selectModelPackages]
  | cons p rest ih =>
    by_cases h1 : p.creationTime < cutoffDate now d
    · by_cases h2 : modelPackageEligibleStatuses.contains p.approvalStatus = true
      · simp only [selectModelPackages, if_pos h1, if_pos h2, List.mem_cons, ih]
        constructor
        · rintro (rfl | ⟨p2, hp2, hs, hc, ht⟩)
          · exact ⟨p, Or.inl rfl, rfl, h1, h2⟩
          · exact ⟨p2, Or.inr hp2, hs, hc, ht⟩
        · rintro ⟨p2, hp2 | hp2, hs, hc, ht⟩
          · exact Or.inl (hp2 ▸ hs.symm)
          · exact Or.inr ⟨p2, hp2, hs, hc, ht⟩
      · simp only [selectModelPackages, if_pos h1, if_neg h2, List.mem_cons, ih]
        constructor
        · rintro ⟨p2, hp2, hs, hc, ht⟩
          exact ⟨p2, Or.inr hp2, hs, hc, ht⟩
        · rintro ⟨p2, hp2 | hp2, hs, hc, ht⟩
          · exact absurd (hp2 ▸ ht) h2
          · exact ⟨p2, hp2, hs, hc, ht⟩
    · simp only [selectModelPackages, if_neg h1, List.mem_cons, ih]
      constructor
      · rintro ⟨p2, hp2, hs, hc, ht⟩
        exact ⟨p2, Or.inr hp2, hs, hc, ht⟩
      · rintro ⟨p2, hp2 | hp2, hs, hc, ht⟩
        · exact absurd (hp2 ▸ hc) h1
        · exact ⟨p2, hp2, hs, hc, ht⟩

/-- The deletion loop calls the deleter on every listed name, in order. -/
theorem deleteLoop_calls (deleter : String → Bool) (l : List String) :
    (deleteLoop deleter l).2 = l := by
  induction l with
  | nil => rfl
  | cons n rest ih =>
    by_cases h : deleter n = true
    · simp [deleteLoop, h, ih]
    · simp [deleteLoop, h, ih]

/-- The deletion loop returns exactly the names whose delete call succeeded. -/
theorem deleteLoop_deleted (deleter : String → Bool) (l : List String) :
    (deleteLoop deleter l).1 = l.filter deleter := by
  induction l with
  | nil => rfl
  | cons n rest ih =>
    by_cases h : deleter n = true
    · simp [deleteLoop, h, ih, List.filter_cons]
    · simp [deleteLoop, h, ih, List.filter_cons]

/-- If the first describe call already reports a terminal status, the loop
returns it at once: one query, at elapsed time 0, and no sleep. -/
theorem waitLoop_first_terminal (query : Nat → String) (timeout : Nat)
    (hq : endpointTerminalStatuses.contains (query 0) = true) :
    waitForEndpoint query timeout =
      some { result := PollResult.terminal (query 0), queryTimes := [0], sleeps := 0 } := by
  have hm : query 0 ∈ endpointTerminalStatuses := by simpa using hq
  show waitLoop query timeout (timeout / pollIntervalSeconds + 2) 0 = _
  rw [show timeout / pollIntervalSeconds + 2 = (timeout / pollIntervalSeconds + 1) + 1 from rfl]
  simp [waitLoop, hm]

/-- If the status sequence never hits a terminal status, the loop runs to the
first elapsed time strictly past timeout: from iteration n with fuel still
exceeding the remaining iterations, it returns Timeout with queries at
30 * n, 30 * (n + 1), ..., 30 * (timeout / 30 + 1). -/
theorem waitLoop_nonterminal (query : Nat → String) (timeout : Nat)
    (hq : ∀ m, endpointTerminalStatuses.contains (query m) = false) :
    ∀ fuel n, 0 < fuel → n + fuel = timeout / 30 + 2 →
      waitLoop query timeout fuel n =
        some { result := PollResult.timedOut,
               queryTimes := (List.range' n fuel).map (fun m => 30 * m),
               sleeps := fuel - 1 } := by
  intro fuel
  induction fuel with
  | zero => intro n h _; exact absurd h (by omega)
  | succ f ih =>
    intro n _ hn
    have hm : query n ∉ endpointTerminalStatuses := by simpa using hq n
    by_cases hlate : timeout < 30 * n
    · have hf : f = 0 := by omega
      subst hf
      simp [waitLoop, hm, pollIntervalSeconds, hlate, List.range']
    · have hf : 0 < f := by omega
      have hrec := ih (n + 1) hf (by omega)
      simp only [waitLoop, pollIntervalSeconds, hrec]
      simp [hm, hlate, List.range'_succ]
      omega

/-- C1, counterexample: the claimed rule "selected iff now - created_at is at
least retention_days and the status is allowed" fails at the boundary. A
training job created exactly 7 days (604800 seconds) before now, with status
Completed, satisfies the claimed condition, yet cleanup_old_training_jobs does
not select it, because the source tests creation_time < cutoff_date strictly. -/
theorem retention_boundary_escapes_selection :
    ¬ ((("job-a" : String) ∈ selectTrainingJobs [⟨"job-a", 0, "Completed"⟩] 604800 7) ↔
      ((604800 : Int) - 0 ≥ 7 * secondsPerDay ∧
        trainingJobEligibleStatuses.contains ("Completed") = true)) := by
  decide

/-- C1, amended: a listed resource is selected iff now - created_at is
STRICTLY greater than retention_days (creation_time < cutoff_date) and, for
the resource types whose listing carries a status (training jobs, endpoints,
model packages), the status is in the per-type allow-list; a model listing
carries no status, so models are selected by age alone. -/
theorem cleanup_selection_rule :
    (∀ (jobs : List TrainingJobSummary) (now : Int) (d : Nat) (s : String),
      s ∈ selectTrainingJobs jobs now d ↔
        ∃ j, j ∈ jobs ∧ j.name = s ∧ j.creationTime < cutoffDate now d ∧
          trainingJobEligibleStatuses.contains j.status = true) ∧
    (∀ (endpoints : List EndpointSummary) (now : Int) (d : Nat) (s : String),
      s ∈ selectEndpoints endpoints now d ↔
        ∃ e, e ∈ endpoints ∧ e.name = s ∧ e.creationTime < cutoffDate now d ∧
          endpointEligibleStatuses.contains e.status = true) ∧
    (∀ (models : List ModelSummary) (now : Int) (d : Nat) (s : String),
      s ∈ selectModels models now d ↔
        ∃ m, m ∈ models ∧ m.name = s ∧ m.creationTime < cutoffDate now d) ∧
    (∀ (packages : List ModelPackageSummary) (now : Int) (d : Nat) (s : String),
      s ∈ selectModelPackages packages now d ↔
        ∃ p, p ∈ packages ∧ p.arn = s ∧ p.creationTime < cutoffDate now d ∧
          modelPackageEligibleStatuses.contains p.approvalStatus = true) :=
  ⟨mem_selectTrainingJobs, mem_selectEndpoints, mem_selectModels,
    mem_selectModelPackages⟩

/-- C2, counterexample: a dry run does not return the eligible set. For one
training job that is eligible (10 days old, Completed, retention 7 days), the
dry-run call returns the empty list while the live call attempts exactly that
job, so the two return values differ. -/
theorem dry_run_returns_empty_not_eligible :
    (cleanupOldTrainingJobs [⟨"job-a", 0, "Completed"⟩] 864000 7 true
        (fun _ => true)).returned = [] ∧
    (cleanupOldTrainingJobs [⟨"job-a", 0, "Completed"⟩] 864000 7 false
        (fun _ => true)).deleterCalls = ["job-a"] ∧
    ¬ ((cleanupOldTrainingJobs [⟨"job-a", 0, "Completed"⟩] 864000 7 true
        (fun _ => true)).returned =
      (cleanupOldTrainingJobs [⟨"job-a", 0, "Completed"⟩] 864000 7 false
        (fun _ => true)).deleterCalls) := by
  decide

/-- C2, amended: for every fixed lister result and now, a dry-run cleanup call
issues zero deleter calls and returns the empty list (not the eligible set,
which it only logs), while the live call attempts to delete exactly the
eligible set that the selection loop computes. -/
theorem dry_run_semantics :
    (∀ (jobs : List TrainingJobSummary) (now : Int) (d : Nat) (deleter : String → Bool),
      cleanupOldTrainingJobs jobs now d true deleter = ⟨[], []⟩ ∧
      (cleanupOldTrainingJobs jobs now d false deleter).deleterCalls =
        selectTrainingJobs jobs now d) ∧
    (∀ (endpoints : List EndpointSummary) (now : Int) (d : Nat) (deleter : String → Bool),
      cleanupOldEndpoints endpoints now d true deleter = ⟨[], []⟩ ∧
      (cleanupOldEndpoints endpoints now d false deleter).deleterCalls =
        selectEndpoints endpoints now d) ∧
    (∀ (models : List ModelSummary) (now : Int) (d : Nat) (deleter : String → Bool),
      cleanupOldModels models now d true deleter = ⟨[], []⟩ ∧
      (cleanupOldModels models now d false deleter).deleterCalls =
        selectModels models now d) ∧
    (∀ (packages : List ModelPackageSummary) (now : Int) (d : Nat) (deleter : String → Bool),
      cleanupOldModelPackages packages now d true deleter = ⟨[], []⟩ ∧
      (cleanupOldModelPackages packages now d false deleter).deleterCalls =
        selectModelPackages packages now d) := by
  refine ⟨fun jobs now d deleter => ⟨rfl, ?_⟩,
    fun endpoints now d deleter => ⟨rfl, ?_⟩,
    fun models now d deleter => ⟨rfl, ?_⟩,
    fun packages now d deleter => ⟨rfl, ?_⟩⟩
  · exact deleteLoop_calls deleter (selectTrainingJobs jobs now d)
  · exact deleteLoop_calls deleter (selectEndpoints endpoints now d)
  · exact deleteLoop_calls deleter (selectModels models now d)
  · exact deleteLoop_calls deleter (selectModelPackages packages now d)

/-- C3: a resource strictly younger than retention_days is never selected by
any of the four cleanup functions, whatever its status: if the resource is in
the lister result, its age now - created_at is below d days, and its
identifier is unique in the listing (identifiers are unique names/ARNs), then
its identifier is not in the eligible set. -/
theorem young_resource_never_selected :
    (∀ (jobs : List TrainingJobSummary) (now : Int) (d : Nat) (j : TrainingJobSummary),
      j ∈ jobs → now - j.creationTime < d * secondsPerDay →
      (∀ j2, j2 ∈ jobs → j2.name = j.name → j2 = j) →
      j.name ∉ selectTrainingJobs jobs now d) ∧
    (∀ (endpoints : List EndpointSummary) (now : Int) (d : Nat) (e : EndpointSummary),
      e ∈ endpoints → now - e.creationTime < d * secondsPerDay →
      (∀ e2, e2 ∈ endpoints → e2.name = e.name → e2 = e) →
      e.name ∉ selectEndpoints endpoints now d) ∧
    (∀ (models : List ModelSummary) (now : Int) (d : Nat) (m : ModelSummary),
      m ∈ models → now - m.creationTime < d * secondsPerDay →
      (∀ m2, m2 ∈ models → m2.name = m.name → m2 = m) →
      m.name ∉ selectModels models now d) ∧
    (∀ (packages : List ModelPackageSummary) (now : Int) (d : Nat) (p : ModelPackageSummary),
      p ∈ packages → now - p.creationTime < d * secondsPerDay →
      (∀ p2, p2 ∈ packages → p2.arn = p.arn → p2 = p) →
      p.arn ∉ selectModelPackages packages now d) := by
  refine ⟨?_, ?_, ?_, ?_⟩
  · intro jobs now d j _ hage huniq hmem
    obtain ⟨j2, hj2, hname, hcut, _⟩ := (mem_selectTrainingJobs jobs now d j.name).1 hmem
    cases huniq j2 hj2 hname
    simp only [cutoffDate, secondsPerDay] at hcut hage
    omega
  · intro endpoints now d e _ hage huniq hmem
    obtain ⟨e2, he2, hname, hcut, _⟩ := (mem_selectEndpoints endpoints now d e.name).1 hmem
    cases huniq e2 he2 hname
    simp only [cutoffDate, secondsPerDay] at hcut hage
    omega
  · intro models now d m _ hage huniq hmem
    obtain ⟨m2, hm2, hname, hcut⟩ := (mem_selectModels models now d m.name).1 hmem
    cases huniq m2 hm2 hname
    simp only [cutoffDate, secondsPerDay] at hcut hage
    omega
  · intro packages now d p _ hage huniq hmem
    obtain ⟨p2, hp2, hname, hcut, _⟩ :=
      (mem_selectModelPackages packages now d p.arn).1 hmem
    cases huniq p2 hp2 hname
    simp only [cutoffDate, secondsPerDay] at hcut hage
    omega

/-- C8: in a live run, the deleter is invoked once per eligible item in
listing order whatever the deleter does, the returned list is exactly the
eligible items whose delete succeeded, and the call returns a value (the
per-item except block keeps one failure from aborting the rest). In the
three-job scenario where deleting job-2 raises, the run attempts all three
and returns job-1 and job-3. -/
theorem live_run_fault_isolation :
    (∀ (jobs : List TrainingJobSummary) (now : Int) (d : Nat) (deleter : String → Bool),
      (cleanupOldTrainingJobs jobs now d false deleter).deleterCalls =
        selectTrainingJobs jobs now d ∧
      (cleanupOldTrainingJobs jobs now d false deleter).returned =
        (selectTrainingJobs jobs now d).filter deleter) ∧
    cleanupOldTrainingJobs
        [⟨"job-1", 0, "Completed"⟩, ⟨"job-2", 0, "Completed"⟩, ⟨"job-3", 0, "Completed"⟩]
        864000 7 false (fun n => !(n == "job-2")) =
      ⟨["job-1", "job-3"], ["job-1", "job-2", "job-3"]⟩ := by
  constructor
  · intro jobs now d deleter
    exact ⟨deleteLoop_calls deleter (selectTrainingJobs jobs now d),
      deleteLoop_deleted deleter (selectTrainingJobs jobs now d)⟩
  · decide

/-- C5, counterexample: wait_for_endpoint does issue a status query after the
timeout boundary. With timeout 30 and a status sequence that is never
terminal, the loop queries at elapsed times 0, 30 and 60: the query at 60
comes strictly after the 30-second timeout boundary, because the source
checks the clock only after each query, not before the next one. -/
theorem query_issued_after_timeout_boundary :
    ∃ run, waitForEndpoint (fun _ => "Creating") 30 = some run ∧
      60 ∈ run.queryTimes ∧ ¬ (60 ≤ 30) :=
  ⟨{ result := PollResult.timedOut, queryTimes := [0, 30, 60], sleeps := 2 },
    by decide, by decide, by decide⟩

/-- C5, amended: if the query never returns a terminal status, the wait
returns Timeout at the first clock check that strictly exceeds timeout. The
check runs after each query, so the loop issues timeout / 30 + 2 queries, at
elapsed times 0, 30, ..., 30 * (timeout / 30 + 1); the last of these falls
strictly after the timeout boundary but no query happens later than
timeout + 30 (one poll interval past the boundary). -/
theorem nonterminal_wait_times_out (query : Nat → String) (timeout : Nat)
    (hq : ∀ m, endpointTerminalStatuses.contains (query m) = false) :
    waitForEndpoint query timeout =
      some { result := PollResult.timedOut,
             queryTimes := (List.range' 0 (timeout / 30 + 2)).map (fun m => 30 * m),
             sleeps := timeout / 30 + 1 } ∧
    (∀ run, waitForEndpoint query timeout = some run →
      (∀ t, t ∈ run.queryTimes → t ≤ timeout + pollIntervalSeconds) ∧
      30 * (timeout / 30 + 1) ∈ run.queryTimes ∧ timeout < 30 * (timeout / 30 + 1)) := by
  have hmain : waitForEndpoint query timeout =
      some { result := PollResult.timedOut,
             queryTimes := (List.range' 0 (timeout / 30 + 2)).map (fun m => 30 * m),
             sleeps := timeout / 30 + 1 } := by
    have h := waitLoop_nonterminal query timeout hq (timeout / 30 + 2) 0
      (by omega) (by omega)
    show waitLoop query timeout (timeout / pollIntervalSeconds + 2) 0 = _
    rw [show timeout / pollIntervalSeconds = timeout / 30 from rfl, h]
    simp
  refine ⟨hmain, ?_⟩
  intro run hrun
  rw [hmain] at hrun
  cases hrun
  refine ⟨?_, ?_, by omega⟩
  · intro t ht
    simp only [List.mem_map, List.mem_range'_1] at ht
    obtain ⟨m, ⟨_, hm⟩, rfl⟩ := ht
    simp only [pollIntervalSeconds]
    omega
  · simp only [List.mem_map, List.mem_range'_1]
    exact ⟨timeout / 30 + 1, ⟨by omega, by omega⟩, rfl⟩

/-- C5, witness for the amended theorem: with a never-terminal status and
timeout 30 the wait times out with queries at 0, 30 and 60 after two
sleeps. -/
theorem nonterminal_wait_times_out_check :
    waitForEndpoint (fun _ => "Creating") 30 =
      some { result := PollResult.timedOut, queryTimes := [0, 30, 60], sleeps := 2 } :=
  ((nonterminal_wait_times_out (fun _ => "Creating") 30 (fun _ => rfl)).1).trans
    (by decide)

/-- C6, counterexample: called with timeout 5, strictly less than the
30-second poll interval, wait_for_endpoint does not fail with a configuration
error before any status query: it issues two status queries (at elapsed times
0 and 30) and returns Timeout. -/
theorem small_timeout_queries_and_times_out :
    ∃ run, waitForEndpoint (fun _ => "Creating") 5 = some run ∧
      run.result = PollResult.timedOut ∧ run.queryTimes ≠ [] :=
  ⟨{ result := PollResult.timedOut, queryTimes := [0, 30], sleeps := 1 },
    by decide, by decide, by decide⟩

/-- C6, amended: wait_for_endpoint performs no validation of timeout against
the poll interval. With timeout strictly below the 30-second poll interval
and a never-terminal status it still issues its first query at elapsed time
0, sleeps once, issues a second query at 30, and returns Timeout; no
configuration-error path exists in the function. -/
theorem small_timeout_no_validation (query : Nat → String) (timeout : Nat)
    (ht : timeout < pollIntervalSeconds)
    (hq : ∀ m, endpointTerminalStatuses.contains (query m) = false) :
    waitForEndpoint query timeout =
      some { result := PollResult.timedOut, queryTimes := [0, 30], sleeps := 1 } := by
  have ht0 : timeout / 30 = 0 := Nat.div_eq_of_lt (by simpa [pollIntervalSeconds] using ht)
  have h := waitLoop_nonterminal query timeout hq (timeout / 30 + 2) 0
    (by omega) (by omega)
  show waitLoop query timeout (timeout / pollIntervalSeconds + 2) 0 = _
  rw [show timeout / pollIntervalSeconds = timeout / 30 from rfl, h, ht0]
  decide

/-- C6, witness: at timeout 5 the wait queries at 0 and 30, sleeps once and
returns Timeout. -/
theorem small_timeout_no_validation_check :
    waitForEndpoint (fun _ => "Creating") 5 =
      some { result := PollResult.timedOut, queryTimes := [0, 30], sleeps := 1 } :=
  small_timeout_no_validation (fun _ => "Creating") 5 (by decide) (fun _ => rfl)

/-- C9: if the first status query already reports a terminal status, the wait
returns that terminal status after exactly one query (at elapsed time 0) and
performs no sleep. -/
theorem first_query_terminal_single_poll (query : Nat → String) (timeout : Nat)
    (hq : endpointTerminalStatuses.contains (query 0) = true) :
    waitForEndpoint query timeout =
      some { result := PollResult.terminal (query 0), queryTimes := [0], sleeps := 0 } :=
  waitLoop_first_terminal query timeout hq

/-- C9, witness: a query reporting InService at once makes the wait return
after one query and no sleep. -/
theorem first_query_terminal_single_poll_check :
    waitForEndpoint (fun _ => "InService") 1800 =
      some { result := PollResult.terminal ("InService"), queryTimes := [0], sleeps := 0 } :=
  first_query_terminal_single_poll (fun _ => "InService") 1800 (by decide)

/-- C7, counterexample: a training job that ends Failed or Stopped is not
returned as an ordinary terminal outcome: wait_for_training_job raises
(Except.error), and in particular its result is not the returned status
Failed. -/
theorem training_failed_status_raises :
    trainingWaitOutcome ("Failed") = Except.error ("Training job failed: Failed") ∧
    trainingWaitOutcome ("Stopped") = Except.error ("Training job failed: Stopped") ∧
    ¬ (trainingWaitOutcome ("Failed") = Except.ok ("Failed")) := by
  refine ⟨rfl, rfl, ?_⟩
  intro h
  exact Except.noConfusion h

/-- C7, amended: wait_for_endpoint does return business-terminal endpoint
statuses (Failed, OutOfService) to the caller as ordinary terminal outcomes,
but wait_for_training_job returns only Completed; any other final training
status, including Failed and Stopped, is raised as an exception rather than
returned. -/
theorem terminal_status_outcomes :
    trainingWaitOutcome ("Completed") = Except.ok ("Completed") ∧
    (∀ s, s ≠ "Completed" →
      trainingWaitOutcome s = Except.error ("Training job failed: " ++ s)) ∧
    (∀ (query : Nat → String) (timeout : Nat), query 0 = "Failed" →
      waitForEndpoint query timeout =
        some { result := PollResult.terminal ("Failed"), queryTimes := [0], sleeps := 0 }) ∧
    (∀ (query : Nat → String) (timeout : Nat), query 0 = "OutOfService" →
      waitForEndpoint query timeout =
        some { result := PollResult.terminal ("OutOfService"), queryTimes := [0], sleeps := 0 }) := by
  refine ⟨rfl, ?_, ?_, ?_⟩
  · intro s hs
    have hb : (s == "Completed") = false := by
      simpa using hs
    simp [trainingWaitOutcome, hb]
  · intro query timeout h
    have := waitLoop_first_terminal query timeout (by rw [h]; decide)
    rwa [h] at this
  · intro query timeout h
    have := waitLoop_first_terminal query timeout (by rw [h]; decide)
    rwa [h] at this

/-- C4, counterexample: two successive create-release saves with the same
(release_type, version) pair do not yield one success and one Conflict error.
Both calls return the filename release_candidate_v1.json (save_release_metadata
has no failure path at all), and after the second call the stored record at
that filename is the second record: the first was silently overwritten, not
protected. -/
theorem duplicate_release_overwrites :
    (saveReleaseMetadata [] ⟨"candidate", "v1", "ep-a", "model-a", "t1"⟩).1 =
      "release_candidate_v1.json" ∧
    (saveReleaseMetadata
        (saveReleaseMetadata [] ⟨"candidate", "v1", "ep-a", "model-a", "t1"⟩).2
        ⟨"candidate", "v1", "ep-b", "model-b", "t2"⟩).1 =
      "release_candidate_v1.json" ∧
    List.lookup "release_candidate_v1.json"
        (saveReleaseMetadata
          (saveReleaseMetadata [] ⟨"candidate", "v1", "ep-a", "model-a", "t1"⟩).2
          ⟨"candidate", "v1", "ep-b", "model-b", "t2"⟩).2 =
      some ⟨"candidate", "v1", "ep-b", "model-b", "t2"⟩ ∧
    (⟨"candidate", "v1", "ep-b", "model-b", "t2"⟩ : ReleaseMetadata) ≠
      ⟨"candidate", "v1", "ep-a", "model-a", "t1"⟩ := by
  refine ⟨rfl, rfl, ?_, by decide⟩
  simp only [saveReleaseMetadata, List.lookup]
  decide

/-- C4, amended: save_release_metadata never checks for an existing record and
has no Conflict error: every call succeeds, returns the filename built from
(release_type, version), and installs its record as the content at that
filename; in particular a second save with the same (release_type, version)
replaces the first record. -/
theorem save_release_metadata_unconditional_write :
    (∀ (store : List (String × ReleaseMetadata)) (m : ReleaseMetadata),
      (saveReleaseMetadata store m).1 = releaseFilename m) ∧
    (∀ (store : List (String × ReleaseMetadata)) (m : ReleaseMetadata),
      List.lookup (releaseFilename m) (saveReleaseMetadata store m).2 = some m) ∧
    (∀ (store : List (String × ReleaseMetadata)) (m1 m2 : ReleaseMetadata),
      m1.releaseType = m2.releaseType → m1.version = m2.version →
      List.lookup (releaseFilename m1)
        (saveReleaseMetadata (saveReleaseMetadata store m1).2 m2).2 = some m2) := by
  refine ⟨fun store m => rfl, fun store m => ?_, fun store m1 m2 h1 h2 => ?_⟩
  · simp [saveReleaseMetadata, List.lookup]
  · have hf : releaseFilename m1 = releaseFilename m2 := by
      simp [releaseFilename, h1, h2]
    rw [hf]
    simp [saveReleaseMetadata, List.lookup]

/-- C10: the add_documentation call in create_zip_package passes five
positional arguments to a four-parameter function, so every invocation that
reaches that step raises TypeError: the call never returns the zip name
(never returns ok), and the entries recorded in the archive by then never
include RELEASE_NOTES.md or metadata.json, provided the filesystem-supplied
entry lists do not themselves contain those names. -/
theorem create_zip_package_type_error
    (zipName projectType : String)
    (sourceEntries trainingFileEntries modelArtifactEntries inferenceFileEntries : List String)
    (trainingOutputDirExists endpointNameProvided : Bool)
    (hclean : ∀ s, s ∈ sourceEntries ++ trainingFileEntries ++
        modelArtifactEntries ++ inferenceFileEntries →
      s ≠ "RELEASE_NOTES.md" ∧ s ≠ "metadata.json") :
    ∃ entries,
      createZipPackage zipName projectType sourceEntries trainingFileEntries
          modelArtifactEntries inferenceFileEntries
          trainingOutputDirExists endpointNameProvided =
        Except.error
          (PyError.typeError
            ("add_documentation takes 4 positional arguments but 5 were given"),
           entries) ∧
      "RELEASE_NOTES.md" ∉ entries ∧ "metadata.json" ∉ entries ∧
      ∀ v, createZipPackage zipName projectType sourceEntries trainingFileEntries
          modelArtifactEntries inferenceFileEntries
          trainingOutputDirExists endpointNameProvided ≠ Except.ok v := by
  simp only [createZipPackage, addDocumentationCallArgCount, addDocumentationParamCount,
    if_neg (by omega : ¬ (5 = 4))]
  refine ⟨_, rfl, ?_, ?_, fun v h => Except.noConfusion h⟩
  · intro hmem
    simp only [List.mem_append, List.mem_singleton] at hmem
    rcases hmem with hmem | hmem
    · split at hmem
      · simp only [List.mem_append] at hmem
        rcases hmem with (hmem | hmem) | hmem
        · exact (hclean _ (by simp [hmem])).1 rfl
        · exact (hclean _ (by simp [hmem])).1 rfl
        · split at hmem
          · exact (hclean _ (by simp [hmem])).1 rfl
          · simp at hmem
      · split at hmem
        · simp only [List.mem_append] at hmem
          rcases hmem with (hmem | hmem) | hmem
          · exact (hclean _ (by simp [hmem])).1 rfl
          · exact (hclean _ (by simp [hmem])).1 rfl
          · split at hmem
            · simp at hmem
            · simp at hmem
        · simp only [List.mem_append] at hmem
          rcases hmem with (hmem | hmem) | hmem
          · exact (hclean _ (by simp [hmem])).1 rfl
          · exact (hclean _ (by simp [hmem])).1 rfl
          · split at hmem
            · exact (hclean _ (by simp [hmem])).1 rfl
            · simp at hmem
    · simp at hmem
  · intro hmem
    simp only [List.mem_append, List.mem_singleton] at hmem
    rcases hmem with hmem | hmem
    · split at hmem
      · simp only [List.mem_append] at hmem
        rcases hmem with (hmem | hmem) | hmem
        · exact (hclean _ (by simp [hmem])).2 rfl
        · exact (hclean _ (by simp [hmem])).2 rfl
        · split at hmem
          · exact (hclean _ (by simp [hmem])).2 rfl
          · simp at hmem
      · split at hmem
        · simp only [List.mem_append] at hmem
          rcases hmem with (hmem | hmem) | hmem
          · exact (hclean _ (by simp [hmem])).2 rfl
          · exact (hclean _ (by simp [hmem])).2 rfl
          · split at hmem
            · simp at hmem
            · simp at hmem
        · simp only [List.mem_append] at hmem
          rcases hmem with (hmem | hmem) | hmem
          · exact (hclean _ (by simp [hmem])).2 rfl
          · exact (hclean _ (by simp [hmem])).2 rfl
          · split at hmem
            · exact (hclean _ (by simp [hmem])).2 rfl
            · simp at hmem
    · simp at hmem

/-- C10, witness: a concrete training-project invocation fails with the
TypeError, its archive entries stop at deployment_config.json, and it returns
no ok value. -/
theorem create_zip_package_type_error_check :
    ∃ entries,
      createZipPackage "package.zip" "training" ["src/train.py"] ["README.md"]
          ["model_artifacts/model.tar.gz"] [] true false =
        Except.error
          (PyError.typeError
            ("add_documentation takes 4 positional arguments but 5 were given"),
           entries) ∧
      "RELEASE_NOTES.md" ∉ entries ∧ "metadata.json" ∉ entries ∧
      ∀ v, createZipPackage "package.zip" "training" ["src/train.py"] ["README.md"]
          ["model_artifacts/model.tar.gz"] [] true false ≠ Except.ok v :=
  create_zip_package_type_error "package.zip" "training" ["src/train.py"]
    ["README.md"] ["model_artifacts/model.tar.gz"] [] true false (by decide)

end SageMakerCICD
